import Mathlib

/-!
# ShadowFeed payment-gated access protocol — verification development

Shallow embedding of the payment pipeline of the ShadowFeed server:
the facilitator's `/verify` and `/settle` handlers (`src/facilitator.ts`,
mirrored verbatim as the embedded facilitator in `src/src/server.ts`),
the query ledger (`recordQuery` and the `queries` table in the db module),
the `/wallet/buy` handler, and the payment middleware that gates the
paid feed endpoints.

Conventions of the embedding:
* JavaScript numbers / BigInt amounts are `Nat` (STX amounts are
  unsigned 64-bit micro-STX; no overflow is reachable in these handlers).
* A field accessed with optional chaining (`x?.y`) is an `Option`;
  JavaScript string falsiness (both `undefined` and `""` are falsy)
  is made explicit where the source relies on it.
* `deserializeTransaction` is an external library call; its outcome on
  a given wire payload is modelled as `Except String StacksTx`
  (either the decoded transaction or the thrown error message).
* The ledger network is an oracle (`Chain`): the result of the single
  `broadcastTransaction` call and the transaction status reported at
  each point in time.
* External calls performed by a handler are collected in a `List Effect`
  trace, in call order.
-/

namespace ShadowFeed

/-- A decoded Stacks transaction, as the facilitator reads it after
`deserializeTransaction`: the token-transfer payload's `amount` and
`recipient`, and the authentication material used by `extractPayer`
(`tx.auth?.spendingCondition?.signer` and `.address`, absent fields
being `none`). -/
structure StacksTx where
  amount : Nat
  recipient : String
  signer : Option String
  address : Option String
  deriving DecidableEq, Repr

/-- The `paymentRequirements` object read by the handlers: `amount`
(missing field defaults to `'0'` in the source), `payTo` (the required
recipient; the source never reads it in `/verify`), and `network`
(missing defaults to `'stacks:2147483648'`). -/
structure PaymentRequirements where
  amount : Option Nat
  payTo : String
  network : Option String
  deriving DecidableEq, Repr

/-- The `paymentPayload` object. The source coalesces
`paymentPayload?.payload?.transaction || paymentPayload?.transaction`;
`transaction` here is that coalesced slot: `none` when no transaction
hex is found, otherwise the outcome of `deserializeTransaction` on it. -/
structure PaymentPayload where
  transaction : Option (Except String StacksTx)
  deriving Repr

/-- Request body of `/verify` and `/settle` (both destructure
`{ paymentPayload, paymentRequirements }`). -/
structure FacRequest where
  paymentPayload : Option PaymentPayload
  paymentRequirements : Option PaymentRequirements
  deriving Repr

/-- The JSON body of a `/verify` response together with its HTTP status. -/
structure VerifyResult where
  status : Nat
  isValid : Bool
  errorReason : Option String
  payer : Option String
  deriving DecidableEq, Repr

/-- The error string built by the amount check of `/verify`:
`Insufficient: tx=... required=...` — the source's rendering of the
amount-insufficiency failure reason. -/
def insufficientReason (txAmount requiredAmount : Nat) : String :=
  "Insufficient: tx=" ++ toString txAmount ++ " required=" ++ toString requiredAmount

/-- `extractPayer` from `src/facilitator.ts`: the truncated signer hex
(`ST` + first 38 chars) when `tx.auth?.spendingCondition?.signer` is
truthy, else `tx.auth?.spendingCondition?.address` when truthy, else
the literal `'unknown'`. An empty string is falsy in the source. -/
def extractPayer (tx : StacksTx) : String :=
  match tx.signer with
  | some s =>
    if s.isEmpty then
      match tx.address with
      | some a => if a.isEmpty then "unknown" else a
      | none => "unknown"
    else "ST" ++ s.take 38
  | none =>
    match tx.address with
    | some a => if a.isEmpty then "unknown" else a
    | none => "unknown"

/-- The `POST /verify` handler of `src/facilitator.ts` (lines 34–69;
identical to the embedded copy in `src/src/server.ts`): reject missing
body parts (400), reject a missing transaction slot (400), surface a
deserialization error (caught, 400), then compare the transaction's
committed amount against `BigInt(paymentRequirements.amount || '0')`
— the only validity check — and on success return the payer derived by
`extractPayer`. -/
def verifyHandler (req : FacRequest) : VerifyResult :=
  match req.paymentPayload, req.paymentRequirements with
  | none, _ =>
    ⟨400, false, some "Missing paymentPayload or paymentRequirements", none⟩
  | some _, none =>
    ⟨400, false, some "Missing paymentPayload or paymentRequirements", none⟩
  | some pp, some reqs =>
    match pp.transaction with
    | none => ⟨400, false, some "No transaction found in payload", none⟩
    | some (Except.error msg) => ⟨400, false, some msg, none⟩
    | some (Except.ok tx) =>
      let requiredAmount := reqs.amount.getD 0
      let txAmount := tx.amount
      if txAmount < requiredAmount then
        ⟨200, false, some (insufficientReason txAmount requiredAmount), none⟩
      else
        ⟨200, true, none, some (extractPayer tx)⟩

/-- A transaction status reported by the Stacks API poll
(`res.data?.tx_status`), abstracted into the four cases `waitForTx`
distinguishes: the literal `'success'`, any status starting with
`'abort'`, any other status string (mempool/pending), and a failed
request (the `axios` call threw, swallowed by the empty catch). -/
inductive TxStatus where
  | success
  | abort
  | pending
  | noResponse
  deriving DecidableEq, Repr

/-- Result of the single `broadcastTransaction` call in `/settle`:
v7 returns `{ txid }` on acceptance or `{ error, reason }` on
rejection (`reason` may be absent, in which case `error` is used). -/
inductive BroadcastResult where
  | ok (txid : String)
  | err (error : String) (reason : Option String)
  deriving DecidableEq, Repr

/-- The ledger network as the `/settle` handler observes it: the
outcome of its one broadcast, and the status the status endpoint
reports `t` milliseconds after polling starts. -/
structure Chain where
  broadcast : BroadcastResult
  status : Nat → TxStatus

/-- External calls a handler performs, in order. -/
inductive Effect where
  | verifyCall
  | settleCall
  | broadcastCall
  deriving DecidableEq, Repr

/-- The polling loop of `waitForTx`, idealized so that the `k`-th poll
happens exactly `5000·k` ms after the start (each poll instantaneous,
each sleep exactly 5000 ms). `fuel` is the number of loop iterations
left, i.e. the number of poll instants `5000·k` still below the
timeout. A `'success'` status returns `true`; an `'abort...'` status
returns `false` immediately; anything else polls again after 5000 ms. -/
def waitForTxGo (status : Nat → TxStatus) : Nat → Nat → Bool
  | 0, _ => false
  | fuel + 1, k =>
    match status (5000 * k) with
    | TxStatus.success => true
    | TxStatus.abort => false
    | _ => waitForTxGo status fuel (k + 1)

/-- Number of poll iterations a `while (Date.now() - start < timeoutMs)`
loop with a 5000 ms period performs: the count of `k` with
`5000·k < timeoutMs`. -/
def pollCount (timeoutMs : Nat) : Nat := (timeoutMs + 4999) / 5000

/-- `waitForTx` from `src/facilitator.ts` (lines 150–162): poll the
transaction status every 5000 ms until `'success'` (true), an
`'abort...'` status (false), or the timeout elapses (false). Note the
return value conflates "aborted" with "still pending": both are
`false`. -/
def waitForTx (status : Nat → TxStatus) (timeoutMs : Nat) : Bool :=
  waitForTxGo status (pollCount timeoutMs) 0

/-- The JSON body of a `/settle` response together with its HTTP
status. The source's success response is
`{ success: true, payer, transaction: txId, network: networkId }` —
it carries no finality field of any kind; the polled confirmation is
only logged. -/
structure SettleResponse where
  status : Nat
  success : Bool
  errorReason : Option String
  payer : Option String
  transaction : Option String
  network : Option String
  deriving DecidableEq, Repr

/-- The `POST /settle` handler of `src/facilitator.ts` (lines 74–129;
identical to the embedded copy in `src/src/server.ts`): validate the
body, deserialize, broadcast exactly once; on broadcast rejection
respond 400 `success:false` with the reason; otherwise poll
`waitForTx` for at most the fixed 180000 ms and respond 200
`success:true` regardless of the polling outcome. The handler takes
no ledger argument: the source consults no stored record before
broadcasting. -/
def settleHandler (chain : Chain) (req : FacRequest) :
    SettleResponse × List Effect :=
  match req.paymentPayload, req.paymentRequirements with
  | none, _ =>
    (⟨400, false, some "Missing payload or requirements", none, none, none⟩, [])
  | some _, none =>
    (⟨400, false, some "Missing payload or requirements", none, none, none⟩, [])
  | some pp, some reqs =>
    match pp.transaction with
    | none =>
      (⟨400, false, some "No transaction in payload", none, none, none⟩, [])
    | some (Except.error msg) =>
      (⟨500, false, some msg, none, none, none⟩, [])
    | some (Except.ok tx) =>
      let networkId := reqs.network.getD "stacks:2147483648"
      let payer := extractPayer tx
      match chain.broadcast with
      | BroadcastResult.err e r =>
        (⟨400, false, some (r.getD e), none, none, none⟩, [Effect.broadcastCall])
      | BroadcastResult.ok txid =>
        let _confirmed := waitForTx chain.status 180000
        (⟨200, true, none, some payer, some txid, some networkId⟩,
         [Effect.broadcastCall])

/-- A row of the `queries` table (db module): the schema declares
`tx_hash TEXT` with **no** UNIQUE constraint and no index on it. -/
structure QueryRecord where
  feed_id : String
  payer : Option String
  tx_hash : Option String
  response_ms : Nat
  response_data : Option String
  deriving DecidableEq, Repr

/-- JavaScript `x || null` on an optional string argument, as
`recordQuery` applies to `payer` and `txHash` before inserting. -/
def jsOrNull (o : Option String) : Option String :=
  match o with
  | some s => if s.isEmpty then none else some s
  | none => none

/-- `recordQuery` from the db module: a plain
`INSERT INTO queries (feed_id, payer, tx_hash, response_ms, response_data)`
inside a transaction that also bumps `feed_stats`. It performs no
existence check and the table enforces no uniqueness, so it appends
unconditionally. -/
def recordQuery (ledger : List QueryRecord) (feedId : String)
    (payer txHash : Option String) (responseMs : Nat)
    (responseData : Option String) : List QueryRecord :=
  ledger ++ [⟨feedId, jsOrNull payer, jsOrNull txHash, responseMs, responseData⟩]

/-- Number of query records carrying a given transaction identifier. -/
def countTx (ledger : List QueryRecord) (txid : String) : Nat :=
  (ledger.filter (fun r => r.tx_hash = some txid)).length

/-- Outcome of one gated request: payment challenge, denial with the
surfaced reason, or release of the resource (with the payer and
transaction identifier the feed handler echoes). -/
inductive GateOutcome where
  | challenged
  | denied (reason : Option String)
  | released (payer : Option String) (txid : Option String)
  deriving DecidableEq, Repr

/-- Modelled from the spec: the Access Gate around a paid feed
endpoint. The `paymentMiddleware` wired in `src/src/server.ts` comes
from the external `x402-stacks` package (not in this repository), so
its orchestration is taken from the spec's state machine (§4.4):
no proof → challenge; proof → `verify`, any failure → DENIED; then
`settle`, `success:false` → DENIED, `success:true` → the route handler
runs. The route handler itself is from `src/src/server.ts`
(lines 296–314): it calls `recordQuery(feedId, payment?.payer,
payment?.transaction, responseMs, data)` and responds with the data,
payer and transaction identifier. -/
def gateStep (chain : Chain) (feedId : String) (proof : Option FacRequest)
    (responseMs : Nat) (data : String) (ledger : List QueryRecord) :
    GateOutcome × List QueryRecord × List Effect :=
  match proof with
  | none => (GateOutcome.challenged, ledger, [])
  | some rq =>
    let v := verifyHandler rq
    if v.isValid then
      let s := settleHandler chain rq
      if s.1.success then
        (GateOutcome.released s.1.payer s.1.transaction,
         recordQuery ledger feedId s.1.payer s.1.transaction responseMs (some data),
         Effect.verifyCall :: Effect.settleCall :: s.2)
      else
        (GateOutcome.denied s.1.errorReason, ledger,
         Effect.verifyCall :: Effect.settleCall :: s.2)
    else
      (GateOutcome.denied v.errorReason, ledger, [Effect.verifyCall])

/-- Request body of `POST /wallet/buy`:
`{ feedId, txId, senderAddress }`, each possibly absent. -/
structure WalletBuyRequest where
  feedId : Option String
  txId : Option String
  senderAddress : Option String
  deriving DecidableEq, Repr

/-- Response of `POST /wallet/buy`. -/
inductive WalletBuyOutcome where
  | badRequest (error : String)
  | ok (feed : String) (paid_by : String) (tx : String) (data : String)
  deriving DecidableEq, Repr

/-- JavaScript truthiness of an optional string: absent and `""` are
falsy. -/
def jsTruthy (o : Option String) : Bool :=
  match o with
  | some s => !s.isEmpty
  | none => false

/-- The feed identifiers `POST /wallet/buy` accepts. -/
def validFeeds : List String := ["whale-alerts", "btc-sentiment", "defi-scores"]

/-- The `POST /wallet/buy` handler of `src/src/server.ts`
(lines 388–427): after a browser-wallet payment, the caller posts
`feedId`, `txId` and `senderAddress`; the handler checks only that the
three fields are truthy and that `feedId` is a known feed, then
generates the feed data, records a query with the caller-supplied
`txId`/`senderAddress`, and returns the data. It never contacts the
facilitator: the effect trace contains no verify, settle or broadcast
call. `data` is the generated feed snapshot. -/
def walletBuy (req : WalletBuyRequest) (data : String) (responseMs : Nat)
    (ledger : List QueryRecord) :
    WalletBuyOutcome × List QueryRecord × List Effect :=
  if !jsTruthy req.feedId || !jsTruthy req.txId || !jsTruthy req.senderAddress then
    (WalletBuyOutcome.badRequest "Missing feedId, txId, or senderAddress", ledger, [])
  else
    let feedId := req.feedId.getD ""
    if !validFeeds.contains feedId then
      (WalletBuyOutcome.badRequest "Invalid feed ID", ledger, [])
    else
      (WalletBuyOutcome.ok feedId (req.senderAddress.getD "") (req.txId.getD "") data,
       recordQuery ledger feedId req.senderAddress req.txId responseMs (some data),
       [])

/-- A ledger oracle that reports the transaction final (status
`'success'`) from time `T` on and pending before — the scenario of the
timeout-monotonicity property. -/
def finalAt (T : Nat) : Nat → TxStatus :=
  fun t => if T ≤ t then TxStatus.success else TxStatus.pending

/-! ## Helper lemmas -/

theorem countTx_append (l : List QueryRecord) (r : QueryRecord) (txid : String) :
    countTx (l ++ [r]) txid =
      countTx l txid + (if r.tx_hash = some txid then 1 else 0) := by
  simp only [countTx, List.filter_append, List.length_append]
  by_cases h : r.tx_hash = some txid <;> simp [h]

theorem waitForTxGo_eq_false_of_pending (status : Nat → TxStatus) :
    ∀ fuel k, (∀ j, j < fuel → status (5000 * (k + j)) = TxStatus.pending) →
      waitForTxGo status fuel k = false := by
  intro fuel
  induction fuel with
  | zero => intro k _; rfl
  | succ n ih =>
    intro k h
    have h0 : status (5000 * k) = TxStatus.pending := by
      have := h 0 (Nat.succ_pos n)
      simpa using this
    rw [waitForTxGo, h0]
    exact ih (k + 1) (fun j hj => by
      have := h (j + 1) (Nat.succ_lt_succ hj)
      have harg : k + 1 + j = k + (j + 1) := by omega
      rw [harg]
      exact this)

theorem waitForTxGo_finalAt_eq_true (T : Nat) :
    ∀ fuel k j, j < fuel → T ≤ 5000 * (k + j) →
      waitForTxGo (finalAt T) fuel k = true := by
  intro fuel
  induction fuel with
  | zero => intro k j hj _; omega
  | succ n ih =>
    intro k j hj hT
    by_cases hk : T ≤ 5000 * k
    · rw [waitForTxGo]
      simp [finalAt, hk]
    · have hstep : finalAt T (5000 * k) = TxStatus.pending := by
        simp [finalAt, hk]
      rw [waitForTxGo, hstep]
      match j, hj with
      | 0, _ => exact absurd (by simpa using hT) hk
      | j' + 1, hj =>
        exact ih (k + 1) j' (Nat.lt_of_succ_lt_succ hj) (by omega)

theorem waitForTx_eq_false_of_abort_at_zero (status : Nat → TxStatus)
    (timeoutMs : Nat) (h0 : status 0 = TxStatus.abort)
    (hpos : 0 < pollCount timeoutMs) : waitForTx status timeoutMs = false := by
  unfold waitForTx
  rcases Nat.exists_eq_add_of_lt hpos with ⟨n, hn⟩
  rw [hn]
  have : 0 + n + 1 = n + 1 := by omega
  rw [this, waitForTxGo]
  simp [h0]

theorem gateStep_released (chain : Chain) (pp : PaymentPayload)
    (reqs : PaymentRequirements) (tx : StacksTx) (txid feedId data : String)
    (ms : Nat) (ledger : List QueryRecord)
    (htx : pp.transaction = some (Except.ok tx))
    (hamt : reqs.amount.getD 0 ≤ tx.amount)
    (hb : chain.broadcast = BroadcastResult.ok txid) :
    gateStep chain feedId (some ⟨some pp, some reqs⟩) ms data ledger =
      (GateOutcome.released (some (extractPayer tx)) (some txid),
       ledger ++ [⟨feedId, jsOrNull (some (extractPayer tx)),
                  jsOrNull (some txid), ms, some data⟩],
       [Effect.verifyCall, Effect.settleCall, Effect.broadcastCall]) := by
  simp [gateStep, verifyHandler, settleHandler, htx, hb,
        Nat.not_lt.mpr hamt, recordQuery]

/-! ## C4 — amount check of verify -/

/-- Claim C4: for a proof whose committed transfer amount is strictly
less than the required amount, `verify` returns `is_valid=false` with
the amount-insufficiency reason (the source's `Insufficient: ...`
string), regardless of recipient and network; for a committed amount
greater than or equal to the required amount, the amount check passes
(and, the amount being the only check, the result is valid). -/
theorem verify_amount_check (pp : PaymentPayload) (reqs : PaymentRequirements)
    (tx : StacksTx) (htx : pp.transaction = some (Except.ok tx)) :
    (tx.amount < reqs.amount.getD 0 →
      verifyHandler ⟨some pp, some reqs⟩ =
        ⟨200, false, some (insufficientReason tx.amount (reqs.amount.getD 0)), none⟩) ∧
    (reqs.amount.getD 0 ≤ tx.amount →
      verifyHandler ⟨some pp, some reqs⟩ =
        ⟨200, true, none, some (extractPayer tx)⟩) := by
  constructor
  · intro h
    simp [verifyHandler, htx, h]
  · intro h
    simp [verifyHandler, htx, Nat.not_lt.mpr h]

/-- Witness for C4: a proof committing 3000 against a 5000 requirement
is rejected as insufficient even with the correct recipient. -/
theorem verify_amount_check_witness :
    verifyHandler ⟨some ⟨some (Except.ok ⟨3000, "R", some "aabbcc", none⟩)⟩,
                   some ⟨some 5000, "R", none⟩⟩ =
      ⟨200, false, some (insufficientReason 3000 5000), none⟩ :=
  (verify_amount_check ⟨some (Except.ok ⟨3000, "R", some "aabbcc", none⟩)⟩
    ⟨some 5000, "R", none⟩ ⟨3000, "R", some "aabbcc", none⟩ rfl).1 (by decide)

/-! ## C5 — recipient is never checked -/

/-- Transaction paying the full required amount to recipient `R2`. -/
def txC5 : StacksTx := ⟨5000, "R2", some "aabbcc", none⟩

/-- Requirement demanding 5000 paid to recipient `R`. -/
def reqsC5 : PaymentRequirements := ⟨some 5000, "R", none⟩

/-- Verify request pairing `txC5` with `reqsC5`. -/
def rqC5 : FacRequest := ⟨some ⟨some (Except.ok txC5)⟩, some reqsC5⟩

set_option maxRecDepth 10000 in
/-- Counterexample to C5: a proof paying the required amount to
recipient `R2 ≠ R` is accepted — `verify` returns `is_valid=true`,
not `RecipientMismatch`. The `/verify` handler never reads
`paymentRequirements.payTo` or the transaction's recipient; no
recipient comparison exists in the source. -/
theorem verify_recipient_mismatch_cex :
    txC5.recipient ≠ reqsC5.payTo ∧
    verifyHandler rqC5 = ⟨200, true, none, some "STaabbcc"⟩ := by
  exact ⟨by decide, by decide⟩

/-- Claim C5 as amended: `verify` performs no recipient check; every
decodable proof whose committed amount meets the requirement is
accepted, even when its destination differs from
`requirement.recipient`. -/
theorem verify_ignores_recipient (pp : PaymentPayload)
    (reqs : PaymentRequirements) (tx : StacksTx)
    (htx : pp.transaction = some (Except.ok tx))
    (hamt : reqs.amount.getD 0 ≤ tx.amount)
    (_hne : tx.recipient ≠ reqs.payTo) :
    verifyHandler ⟨some pp, some reqs⟩ =
      ⟨200, true, none, some (extractPayer tx)⟩ := by
  simp [verifyHandler, htx, Nat.not_lt.mpr hamt]

/-- Witness for amended C5: the `R2`-destined proof of the
counterexample is accepted. -/
theorem verify_ignores_recipient_witness :
    verifyHandler ⟨some ⟨some (Except.ok txC5)⟩, some reqsC5⟩ =
      ⟨200, true, none, some (extractPayer txC5)⟩ :=
  verify_ignores_recipient ⟨some (Except.ok txC5)⟩ reqsC5 txC5 rfl
    (by decide) (by decide)

/-! ## C9 — missing required amount defaults to zero -/

/-- Claim C9: when `paymentRequirements.amount` is absent, the required
amount defaults to `BigInt('0')`, the amount check (the only check)
passes for every decodable proof — committed amounts are non-negative —
and `verify` returns `is_valid=true` no matter how small the transfer. -/
theorem verify_missing_amount_accepts (pp : PaymentPayload)
    (reqs : PaymentRequirements) (tx : StacksTx)
    (htx : pp.transaction = some (Except.ok tx))
    (hamt : reqs.amount = none) :
    verifyHandler ⟨some pp, some reqs⟩ =
      ⟨200, true, none, some (extractPayer tx)⟩ := by
  simp [verifyHandler, htx, hamt]

/-- Witness for C9: with no `amount` in the requirements, even a proof
transferring 0 micro-STX verifies as valid. -/
theorem verify_missing_amount_accepts_witness :
    verifyHandler ⟨some ⟨some (Except.ok ⟨0, "R", some "aabbcc", none⟩)⟩,
                   some ⟨none, "R", none⟩⟩ =
      ⟨200, true, none, some (extractPayer ⟨0, "R", some "aabbcc", none⟩)⟩ :=
  verify_missing_amount_accepts ⟨some (Except.ok ⟨0, "R", some "aabbcc", none⟩)⟩
    ⟨none, "R", none⟩ ⟨0, "R", some "aabbcc", none⟩ rfl rfl

/-! ## C10 — payer defaults to the literal string unknown -/

/-- Claim C10: when neither a (truthy) signer nor a (truthy) address
can be extracted from the transaction's authentication material,
`extractPayer` returns the literal `'unknown'` rather than failing,
and `verify` can return `is_valid=true` with `payer='unknown'`. -/
theorem verify_payer_unknown (pp : PaymentPayload)
    (reqs : PaymentRequirements) (tx : StacksTx)
    (htx : pp.transaction = some (Except.ok tx))
    (hs : ∀ s, tx.signer = some s → s = "")
    (ha : ∀ a, tx.address = some a → a = "")
    (hamt : reqs.amount.getD 0 ≤ tx.amount) :
    extractPayer tx = "unknown" ∧
    verifyHandler ⟨some pp, some reqs⟩ = ⟨200, true, none, some "unknown"⟩ := by
  have hpayer : extractPayer tx = "unknown" := by
    obtain ⟨amt, rcpt, sg, ad⟩ := tx
    rcases sg with _ | s
    · rcases ad with _ | a
      · rfl
      · have ha' := ha a rfl
        subst ha'
        rfl
    · have hs' := hs s rfl
      subst hs'
      rcases ad with _ | a
      · rfl
      · have ha' := ha a rfl
        subst ha'
        rfl
  refine ⟨hpayer, ?_⟩
  rw [show (⟨200, true, none, some "unknown"⟩ : VerifyResult)
        = ⟨200, true, none, some (extractPayer tx)⟩ by rw [hpayer]]
  simp [verifyHandler, htx, Nat.not_lt.mpr hamt]

/-- Witness for C10: a sufficient proof carrying no signer and no
address verifies as valid with payer `'unknown'`. -/
theorem verify_payer_unknown_witness :
    extractPayer ⟨1000, "R", none, none⟩ = "unknown" ∧
    verifyHandler ⟨some ⟨some (Except.ok ⟨1000, "R", none, none⟩)⟩,
                   some ⟨some 1000, "R", none⟩⟩ =
      ⟨200, true, none, some "unknown"⟩ :=
  verify_payer_unknown ⟨some (Except.ok ⟨1000, "R", none, none⟩)⟩
    ⟨some 1000, "R", none⟩ ⟨1000, "R", none, none⟩ rfl
    (fun s h => by simp at h) (fun a h => by simp at h) (by decide)

/-! ## C8 — wallet/buy releases data with no payment verification -/

/-- Claim C8: any request to `POST /wallet/buy` naming a known feed and
carrying any non-empty `txId` and `senderAddress` strings gets the
generated feed data back, and a QueryRecord with that `txId` and
`senderAddress` is appended — with an empty effect trace: neither
`verify` nor `settle` is invoked on any payment proof. The
caller-supplied `txId` is never checked against the chain. -/
theorem walletBuy_releases_without_verification
    (feedId txId sender data : String) (ms : Nat) (ledger : List QueryRecord)
    (hfeed : feedId ∈ validFeeds) (htx : txId ≠ "") (hsender : sender ≠ "") :
    walletBuy ⟨some feedId, some txId, some sender⟩ data ms ledger =
      (WalletBuyOutcome.ok feedId sender txId data,
       ledger ++ [⟨feedId, some sender, some txId, ms, some data⟩],
       []) := by
  have hxe : txId.isEmpty = false := by
    cases h : txId.isEmpty
    · rfl
    · exact absurd ((String.isEmpty_iff txId).mp h) htx
  have hse : sender.isEmpty = false := by
    cases h : sender.isEmpty
    · rfl
    · exact absurd ((String.isEmpty_iff sender).mp h) hsender
  simp only [validFeeds, List.mem_cons, List.not_mem_nil, or_false] at hfeed
  rcases hfeed with rfl | rfl | rfl <;>
    simp [walletBuy, jsTruthy, jsOrNull, recordQuery, validFeeds, hxe, hse,
          show ("whale-alerts").isEmpty = false from by decide,
          show ("btc-sentiment").isEmpty = false from by decide,
          show ("defi-scores").isEmpty = false from by decide]

/-- Witness for C8: a concrete `/wallet/buy` request for
`whale-alerts` with an arbitrary transaction id string is served and
recorded without any facilitator call. -/
theorem walletBuy_releases_without_verification_witness :
    walletBuy ⟨some "whale-alerts", some "0xanything", some "STME"⟩ "snap" 7 [] =
      (WalletBuyOutcome.ok "whale-alerts" "STME" "0xanything" "snap",
       [⟨"whale-alerts", some "STME", some "0xanything", 7, some "snap"⟩],
       []) :=
  walletBuy_releases_without_verification "whale-alerts" "0xanything" "STME"
    "snap" 7 [] (by decide) (by decide) (by decide)

/-! ## C2 — settle never short-circuits on an existing record -/

/-- Transaction used by the C2 scenario: 5000 micro-STX to `R`. -/
def txC2 : StacksTx := ⟨5000, "R", some "aabbcc", none⟩

/-- Settle request resubmitting `txC2`. -/
def rqC2 : FacRequest := ⟨some ⟨some (Except.ok txC2)⟩, some ⟨some 5000, "R", none⟩⟩

/-- Chain oracle for C2: broadcast accepted with id `0xabc`, status
stays in the mempool. -/
def chainC2 : Chain := ⟨BroadcastResult.ok "0xabc", fun _ => TxStatus.pending⟩

/-- Query ledger for C2 that already holds a released record for
transaction `0xabc`. -/
def ledgerC2 : List QueryRecord :=
  [⟨"whale-alerts", some "STaabbcc", some "0xabc", 5, some "snap"⟩]

set_option maxRecDepth 10000 in
/-- Counterexample to C2: with a record for transaction `0xabc` already
in the Query Ledger, invoking `settle` with the same proof still
performs a broadcast (effect trace `[broadcastCall]`, not `[]`) and
re-runs the full settlement rather than short-circuiting to the
existing result: `settleHandler` takes no ledger input at all, so no
stored record can influence it. -/
theorem settle_rebroadcasts_cex :
    countTx ledgerC2 "0xabc" = 1 ∧
    (settleHandler chainC2 rqC2).2 = [Effect.broadcastCall] ∧
    (settleHandler chainC2 rqC2).1.transaction = some "0xabc" := by
  refine ⟨by decide, by decide, by decide⟩

/-- Claim C2 as amended: `settle` performs no Query Ledger lookup and
broadcasts on every invocation with a decodable transaction — exactly
one `broadcastTransaction` call per invocation, whatever records
exist; duplicate submissions are only defused by the underlying
chain's own idempotency against rebroadcast. -/
theorem settle_always_broadcasts (chain : Chain) (pp : PaymentPayload)
    (reqs : PaymentRequirements) (tx : StacksTx)
    (htx : pp.transaction = some (Except.ok tx)) :
    (settleHandler chain ⟨some pp, some reqs⟩).2 = [Effect.broadcastCall] := by
  rcases hb : chain.broadcast with txid | ⟨e, r⟩ <;>
    simp [settleHandler, htx, hb]

/-- Witness for amended C2: the C2 scenario's second submission
broadcasts again. -/
theorem settle_always_broadcasts_witness :
    (settleHandler chainC2 rqC2).2 = [Effect.broadcastCall] :=
  settle_always_broadcasts chainC2 ⟨some (Except.ok txC2)⟩
    ⟨some 5000, "R", none⟩ txC2 rfl

/-! ## C6 — broadcast rejection denies and writes nothing -/

/-- Claim C6: when the ledger rejects the broadcast outright, `settle`
responds 400 `success:false` carrying the rejection reason (the
response's `reason` field, falling back to `error`), the broadcast is
performed exactly once (no retry), the gate denies the request, and
the Query Ledger is unchanged — no QueryRecord is written. The gate
orchestration is modelled from the spec (§4.4), the middleware being
the external x402-stacks package; the settle branch and the placement
of `recordQuery` inside the gated route handler are from the source. -/
theorem broadcast_rejected_denied (chain : Chain) (pp : PaymentPayload)
    (reqs : PaymentRequirements) (tx : StacksTx) (e : String)
    (r : Option String) (feedId data : String) (ms : Nat)
    (ledger : List QueryRecord)
    (htx : pp.transaction = some (Except.ok tx))
    (hamt : reqs.amount.getD 0 ≤ tx.amount)
    (hb : chain.broadcast = BroadcastResult.err e r) :
    (settleHandler chain ⟨some pp, some reqs⟩).1 =
      ⟨400, false, some (r.getD e), none, none, none⟩ ∧
    (settleHandler chain ⟨some pp, some reqs⟩).2 = [Effect.broadcastCall] ∧
    gateStep chain feedId (some ⟨some pp, some reqs⟩) ms data ledger =
      (GateOutcome.denied (some (r.getD e)), ledger,
       [Effect.verifyCall, Effect.settleCall, Effect.broadcastCall]) := by
  refine ⟨?_, ?_, ?_⟩ <;>
    simp [gateStep, verifyHandler, settleHandler, htx, hb, Nat.not_lt.mpr hamt]

/-- Witness for C6: a sufficient proof whose broadcast the chain
rejects as already spent is denied, with the ledger left empty. -/
theorem broadcast_rejected_denied_witness :
    (settleHandler ⟨BroadcastResult.err "transaction rejected" (some "TooMuchChaining"),
        fun _ => TxStatus.pending⟩
      ⟨some ⟨some (Except.ok ⟨5000, "R", some "aabbcc", none⟩)⟩,
       some ⟨some 5000, "R", none⟩⟩).1 =
      ⟨400, false, some "TooMuchChaining", none, none, none⟩ ∧
    (settleHandler ⟨BroadcastResult.err "transaction rejected" (some "TooMuchChaining"),
        fun _ => TxStatus.pending⟩
      ⟨some ⟨some (Except.ok ⟨5000, "R", some "aabbcc", none⟩)⟩,
       some ⟨some 5000, "R", none⟩⟩).2 = [Effect.broadcastCall] ∧
    gateStep ⟨BroadcastResult.err "transaction rejected" (some "TooMuchChaining"),
        fun _ => TxStatus.pending⟩ "whale-alerts"
      (some ⟨some ⟨some (Except.ok ⟨5000, "R", some "aabbcc", none⟩)⟩,
             some ⟨some 5000, "R", none⟩⟩) 5 "snap" [] =
      (GateOutcome.denied (some "TooMuchChaining"), [],
       [Effect.verifyCall, Effect.settleCall, Effect.broadcastCall]) :=
  broadcast_rejected_denied
    ⟨BroadcastResult.err "transaction rejected" (some "TooMuchChaining"),
     fun _ => TxStatus.pending⟩
    ⟨some (Except.ok ⟨5000, "R", some "aabbcc", none⟩)⟩
    ⟨some 5000, "R", none⟩ ⟨5000, "R", some "aabbcc", none⟩
    "transaction rejected" (some "TooMuchChaining") "whale-alerts" "snap" 5 []
    rfl (by decide) rfl

/-! ## C3 — terminal abort is indistinguishable from pending -/

/-- Transaction for the C3 scenario, with no extractable payer. -/
def txC3 : StacksTx := ⟨5000, "R", none, none⟩

/-- Settle request submitting `txC3`. -/
def rqC3 : FacRequest := ⟨some ⟨some (Except.ok txC3)⟩, some ⟨some 5000, "R", none⟩⟩

/-- Chain oracle for C3: broadcast accepted with id `0xdead`, then the
status endpoint reports a terminal abort at every poll. -/
def chainC3 : Chain := ⟨BroadcastResult.ok "0xdead", fun _ => TxStatus.abort⟩

set_option maxRecDepth 10000 in
/-- Counterexample to C3: against a chain whose status endpoint
reports a terminal abort, the polling helper does return `false`, but
`settle` responds 200 `success:true` with **no** finality field of any
kind (its response never distinguishes aborted from pending or
confirmed), and the gate consequently RELEASES the resource and
appends a QueryRecord instead of transitioning to DENIED. -/
theorem settle_abort_released_cex :
    waitForTx chainC3.status 180000 = false ∧
    (settleHandler chainC3 rqC3).1 =
      ⟨200, true, none, some "unknown", some "0xdead", some "stacks:2147483648"⟩ ∧
    (gateStep chainC3 "whale-alerts" (some rqC3) 5 "snap" []).1 =
      GateOutcome.released (some "unknown") (some "0xdead") ∧
    (gateStep chainC3 "whale-alerts" (some rqC3) 5 "snap" []).2.1 =
      [⟨"whale-alerts", some "unknown", some "0xdead", 5, some "snap"⟩] := by
  refine ⟨by decide, by decide, by decide, by decide⟩

/-- Claim C3 as amended: when the ledger reports a terminal abort for
the broadcast transaction, the polling helper returns `false`, yet
`settle` still responds 200 `success:true` — its response carries no
finality state at all, so the aborted case is indistinguishable from
the pending one — and the Access Gate releases the resource and
appends a QueryRecord rather than transitioning to DENIED. -/
theorem settle_abort_still_success (chain : Chain) (pp : PaymentPayload)
    (reqs : PaymentRequirements) (tx : StacksTx) (txid feedId data : String)
    (ms : Nat) (ledger : List QueryRecord)
    (htx : pp.transaction = some (Except.ok tx))
    (hamt : reqs.amount.getD 0 ≤ tx.amount)
    (hb : chain.broadcast = BroadcastResult.ok txid)
    (habort : chain.status 0 = TxStatus.abort) :
    waitForTx chain.status 180000 = false ∧
    (settleHandler chain ⟨some pp, some reqs⟩).1 =
      ⟨200, true, none, some (extractPayer tx), some txid,
       some (reqs.network.getD "stacks:2147483648")⟩ ∧
    gateStep chain feedId (some ⟨some pp, some reqs⟩) ms data ledger =
      (GateOutcome.released (some (extractPayer tx)) (some txid),
       ledger ++ [⟨feedId, jsOrNull (some (extractPayer tx)),
                  jsOrNull (some txid), ms, some data⟩],
       [Effect.verifyCall, Effect.settleCall, Effect.broadcastCall]) := by
  refine ⟨waitForTx_eq_false_of_abort_at_zero chain.status 180000 habort (by decide),
          ?_, gateStep_released chain pp reqs tx txid feedId data ms ledger htx hamt hb⟩
  simp [settleHandler, htx, hb]

/-- Witness for amended C3: the C3 scenario, at its concrete inputs. -/
theorem settle_abort_still_success_witness :
    waitForTx chainC3.status 180000 = false ∧
    (settleHandler chainC3 rqC3).1 =
      ⟨200, true, none, some (extractPayer txC3), some "0xdead",
       some ((⟨some 5000, "R", none⟩ : PaymentRequirements).network.getD "stacks:2147483648")⟩ ∧
    gateStep chainC3 "btc-sentiment" (some rqC3) 5 "snap" [] =
      (GateOutcome.released (some (extractPayer txC3)) (some "0xdead"),
       [] ++ [⟨"btc-sentiment", jsOrNull (some (extractPayer txC3)),
              jsOrNull (some "0xdead"), 5, some "snap"⟩],
       [Effect.verifyCall, Effect.settleCall, Effect.broadcastCall]) :=
  settle_abort_still_success chainC3 ⟨some (Except.ok txC3)⟩
    ⟨some 5000, "R", none⟩ txC3 "0xdead" "btc-sentiment" "snap" 5 []
    rfl (by decide) rfl rfl

/-! ## C1 — no at-most-once guarantee per transaction identifier -/

/-- Transaction for the C1 scenario: 5000 micro-STX to `R`. -/
def txC1 : StacksTx := ⟨5000, "R", some "aabbcc", none⟩

/-- The duplicated proof submission of the C1 scenario. -/
def rqC1 : FacRequest := ⟨some ⟨some (Except.ok txC1)⟩, some ⟨some 5000, "R", none⟩⟩

/-- Chain oracle for C1: both submissions broadcast-accept with the
same transaction id `0xabc` (the chain is idempotent against
rebroadcast of one signed transaction) and stay in the mempool. -/
def chainC1 : Chain := ⟨BroadcastResult.ok "0xabc", fun _ => TxStatus.pending⟩

set_option maxRecDepth 10000 in
/-- Counterexample to C1: submitting the same proof (transaction id
`0xabc`) to the full pipeline twice, starting from an empty Query
Ledger, creates **two** QueryRecords with that transaction id — not
exactly one. The `queries` table has no UNIQUE constraint on `tx_hash`
and `recordQuery` inserts unconditionally, so nothing enforces the
at-most-one invariant; both callers do observe a released outcome
referencing `0xabc`. -/
theorem duplicate_submission_two_records_cex :
    (gateStep chainC1 "whale-alerts" (some rqC1) 5 "snap" []).1 =
      GateOutcome.released (some "STaabbcc") (some "0xabc") ∧
    (gateStep chainC1 "whale-alerts" (some rqC1) 5 "snap"
        (gateStep chainC1 "whale-alerts" (some rqC1) 5 "snap" []).2.1).1 =
      GateOutcome.released (some "STaabbcc") (some "0xabc") ∧
    countTx (gateStep chainC1 "whale-alerts" (some rqC1) 5 "snap"
        (gateStep chainC1 "whale-alerts" (some rqC1) 5 "snap" []).2.1).2.1 "0xabc"
      = 2 := by
  refine ⟨by decide, by decide, by decide⟩

/-- Claim C1 as amended: both submissions of a duplicate proof observe
a released outcome referencing the same transaction identifier, but
each pipeline pass appends its own QueryRecord — after two passes the
Query Ledger holds two more records for that transaction identifier
than before, since neither the schema nor `recordQuery` enforces
uniqueness. -/
theorem duplicate_submission_two_records (chain : Chain)
    (pp : PaymentPayload) (reqs : PaymentRequirements) (tx : StacksTx)
    (txid feedId data : String) (ms : Nat) (ledger : List QueryRecord)
    (htx : pp.transaction = some (Except.ok tx))
    (hamt : reqs.amount.getD 0 ≤ tx.amount)
    (hb : chain.broadcast = BroadcastResult.ok txid)
    (hnz : txid ≠ "") :
    (gateStep chain feedId (some ⟨some pp, some reqs⟩) ms data ledger).1 =
      GateOutcome.released (some (extractPayer tx)) (some txid) ∧
    (gateStep chain feedId (some ⟨some pp, some reqs⟩) ms data
        (gateStep chain feedId (some ⟨some pp, some reqs⟩) ms data ledger).2.1).1 =
      GateOutcome.released (some (extractPayer tx)) (some txid) ∧
    countTx (gateStep chain feedId (some ⟨some pp, some reqs⟩) ms data
        (gateStep chain feedId (some ⟨some pp, some reqs⟩) ms data ledger).2.1).2.1
        txid
      = countTx ledger txid + 2 := by
  have hrec : jsOrNull (some txid) = some txid := by
    have : txid.isEmpty = false := by
      cases h : txid.isEmpty
      · rfl
      · exact absurd ((String.isEmpty_iff txid).mp h) hnz
    simp [jsOrNull, this]
  have h1 := gateStep_released chain pp reqs tx txid feedId data ms ledger htx hamt hb
  refine ⟨by rw [h1], ?_, ?_⟩
  · rw [h1]
    rw [gateStep_released chain pp reqs tx txid feedId data ms _ htx hamt hb]
  · rw [h1]
    rw [gateStep_released chain pp reqs tx txid feedId data ms _ htx hamt hb]
    rw [List.append_assoc]
    rw [show ([⟨feedId, jsOrNull (some (extractPayer tx)), jsOrNull (some txid),
               ms, some data⟩] ++
             [⟨feedId, jsOrNull (some (extractPayer tx)), jsOrNull (some txid),
               ms, some data⟩] : List QueryRecord)
          = [⟨feedId, jsOrNull (some (extractPayer tx)), jsOrNull (some txid),
              ms, some data⟩,
             ⟨feedId, jsOrNull (some (extractPayer tx)), jsOrNull (some txid),
              ms, some data⟩] from rfl]
    simp [countTx, List.filter_append, hrec]

/-- Witness for amended C1: the C1 scenario, from an empty ledger. -/
theorem duplicate_submission_two_records_witness :
    (gateStep chainC1 "whale-alerts" (some rqC1) 5 "snap" []).1 =
      GateOutcome.released (some (extractPayer txC1)) (some "0xabc") ∧
    (gateStep chainC1 "whale-alerts" (some rqC1) 5 "snap"
        (gateStep chainC1 "whale-alerts" (some rqC1) 5 "snap" []).2.1).1 =
      GateOutcome.released (some (extractPayer txC1)) (some "0xabc") ∧
    countTx (gateStep chainC1 "whale-alerts" (some rqC1) 5 "snap"
        (gateStep chainC1 "whale-alerts" (some rqC1) 5 "snap" []).2.1).2.1 "0xabc"
      = countTx ([] : List QueryRecord) "0xabc" + 2 :=
  duplicate_submission_two_records chainC1 ⟨some (Except.ok txC1)⟩
    ⟨some 5000, "R", none⟩ txC1 "0xabc" "whale-alerts" "snap" 5 []
    rfl (by decide) rfl (by decide)

/-! ## C7 — timeout monotonicity of the finality poll -/

/-- Counterexample to C7: `settle` hardcodes its 180000 ms timeout, so
the property can only concern the polling helper `waitForTx`; and even
there the claim fails as stated: with the ledger final at
T = 6000 ms and timeouts T1 = 1000 < T < T2 = 7000, the T1 call
returns `false` (pending) as claimed, but the T2 call **also** returns
`false` — its polls run at 0 ms and 5000 ms, both before T, and the
next poll instant 10000 ms is past the timeout. -/
theorem waitForTx_monotonicity_cex :
    (1000 : Nat) < 6000 ∧ (6000 : Nat) < 7000 ∧
    waitForTx (finalAt 6000) 1000 = false ∧
    waitForTx (finalAt 6000) 7000 = false := by
  refine ⟨by decide, by decide, by decide, by decide⟩

/-- Claim C7 as amended: for the polling helper `waitForTx` (the
`settle` endpoint itself takes no timeout; it always passes the fixed
180000 ms), against a ledger final at time T: a call with timeout
T1 < T returns `false` (pending), and a call with timeout T2 returns
`true` (confirmed) provided T2 ≥ T + 5000 ms, the slack needed for one
of the 5000 ms-spaced poll instants to land inside [T, T2); for
T < T2 < T + 5000 the confirmed result is not guaranteed, as the
counterexample shows. -/
theorem waitForTx_monotone_with_margin (T T1 T2 : Nat)
    (h1 : T1 < T) (h2 : T + 5000 ≤ T2) :
    waitForTx (finalAt T) T1 = false ∧ waitForTx (finalAt T) T2 = true := by
  constructor
  · apply waitForTxGo_eq_false_of_pending
    intro j hj
    have hjlt : 5000 * j < T1 := by
      simp only [pollCount] at hj
      omega
    simp only [Nat.zero_add]
    simp [finalAt, Nat.not_le.mpr (by omega : 5000 * j < T)]
  · apply waitForTxGo_finalAt_eq_true T (pollCount T2) 0 ((T + 4999) / 5000)
    · simp only [pollCount]
      omega
    · omega

/-- Witness for amended C7: ledger final at 6000 ms; the 1000 ms call
reports pending and the 11000 ms call reports confirmed. -/
theorem waitForTx_monotone_with_margin_witness :
    waitForTx (finalAt 6000) 1000 = false ∧
    waitForTx (finalAt 6000) 11000 = true :=
  waitForTx_monotone_with_margin 6000 1000 11000 (by decide) (by decide)

end ShadowFeed
